import Mathlib

/-!
Verification of `pika/compat.py` (module `pika.compat`).

We give a shallow embedding of the functions the claims are about:

* `nonblocking_socketpair(family, socket_type, proto)` — builds a pair of
  connected non-blocking loopback sockets via a bind/listen/connect/accept
  handshake.  The OS socket layer is modelled by an `Oracle` that fixes the
  outcome of each OS call (success, or an `OSError` with a numeric errno), and
  the function is run as a pure Lean function returning both its Python-level
  outcome (`Except PyErr (Nat × Nat)` — a raised exception, or the returned
  pair of socket ids) and the full trace of socket-layer events it performed,
  in order.  Python's `try/except/raise` and `try/finally` semantics are
  translated explicitly: an exception raised by a cleanup call replaces the
  in-flight exception, exactly as in CPython.
  Socket ids are fixed by construction order: 0 = listener (`lsock`),
  1 = client side (`csock`), 2 = server side (`ssock`, made by `accept`).

* `as_bytes(value)` — over a `PyVal` type separating `str` from `bytes`.

* `to_digit(value)` — with `str.isdigit`, `int(...)` and `\d` of
  `RE_NUM = (\d+).+` modelled over the two Unicode character classes CPython
  consults: decimal digits (category Nd, carrying a decimal value — what
  `int()` parses and what `\d` matches in a `str` pattern), and digit
  characters without a decimal value (`Numeric_Type=Digit`, e.g. `'²'` —
  accepted by `str.isdigit` but rejected by `int()`).  The relevant runs of
  the Unicode character database are embedded as finite tables, and
  `int(...)` is fallible (`Except Unit Int`) so that its raising path — hit
  by `to_digit('²')` in CPython — is visible in the model.

Numeric constants (`AF_INET`, `AF_INET6`, `SOCK_STREAM`) take their Linux
values; the development only uses that they are pairwise distinct.
-/

/-- `socket.AF_INET` (Linux value). -/
def AF_INET : Nat := 2

/-- `socket.AF_INET6` (Linux value). -/
def AF_INET6 : Nat := 10

/-- `socket.SOCK_STREAM` (Linux value). -/
def SOCK_STREAM : Nat := 1

/-- `_LOCALHOST = '127.0.0.1'` from the source. -/
def LOCALHOST : String := "127.0.0.1"

/-- `_LOCALHOST_V6 = '::1'` from the source. -/
def LOCALHOST_V6 : String := "::1"

/-- A Python exception as raised by the routine: `ValueError(msg)` from
argument validation, or an `OSError` (= `socket.error`) carrying an errno. -/
inductive PyErr where
  | valueError (msg : String)
  | osError (code : Nat)
deriving DecidableEq

/-- One observable call into the OS socket layer, with its arguments.
Socket ids are natural numbers assigned in creation order. -/
inductive Event where
  | socketCreated (id : Nat)
  | bind (id : Nat) (host : String) (port : Nat)
  | listen (id : Nat) (backlog : Nat)
  | getsockname (id : Nat)
  | connect (id : Nat) (host : String) (port : Nat)
  | accept (lid : Nat) (newId : Nat)
  | close (id : Nat)
  | setblocking (id : Nat) (blocking : Bool)
deriving DecidableEq

/-- Outcome of every OS-level call the routine can make.  `none` / `.ok`
means the call succeeds; `some e` / `.error e` means it raises `OSError e`.
`somaxconn` is the platform's `socket.SOMAXCONN`; when `getsocknameRes` is
`none` the call succeeds and yields `sockname`, the OS-assigned
`(addr, port)` (the first two fields of the sockname tuple, as taken by the
source's `[:2]`). -/
structure Oracle where
  somaxconn : Nat
  lsockCreate : Option Nat
  bindRes : Option Nat
  listenRes : Option Nat
  getsocknameRes : Option Nat
  sockname : String × Nat
  csockCreate : Option Nat
  connectRes : Option Nat
  acceptRes : Option Nat
  csockClose : Option Nat
  lsockClose : Option Nat
deriving DecidableEq

/-- The body of the outer `try:` of `nonblocking_socketpair` (everything
between `lsock = socket.socket(...)` and the `finally:`): bind, listen,
getsockname, create `csock`, then the inner
`try: connect; accept  except Exception: csock.close(); raise`.
Returns the body's outcome (`.ok ()` when the handshake completed and
`ssock` exists) together with the events it performed, in order.  On the
inner except path, if `csock.close()` itself raises, that exception
propagates in place of the original one (CPython semantics). -/
def runBody (o : Oracle) (host : String) : Except PyErr Unit × List Event :=
  match o.bindRes with
  | some e => (.error (.osError e), [.bind 0 host 0])
  | none =>
  match o.listenRes with
  | some e =>
      (.error (.osError e),
       [.bind 0 host 0, .listen 0 (min o.somaxconn 128)])
  | none =>
  match o.getsocknameRes with
  | some e =>
      (.error (.osError e),
       [.bind 0 host 0, .listen 0 (min o.somaxconn 128), .getsockname 0])
  | none =>
  let addr := o.sockname.1
  let port := o.sockname.2
  match o.csockCreate with
  | some e =>
      (.error (.osError e),
       [.bind 0 host 0, .listen 0 (min o.somaxconn 128), .getsockname 0])
  | none =>
  match o.connectRes with
  | some e1 =>
      (.error (.osError (match o.csockClose with
                         | some e2 => e2
                         | none => e1)),
       [.bind 0 host 0, .listen 0 (min o.somaxconn 128), .getsockname 0,
        .socketCreated 1, .connect 1 addr port, .close 1])
  | none =>
  match o.acceptRes with
  | some e1 =>
      (.error (.osError (match o.csockClose with
                         | some e2 => e2
                         | none => e1)),
       [.bind 0 host 0, .listen 0 (min o.somaxconn 128), .getsockname 0,
        .socketCreated 1, .connect 1 addr port, .close 1])
  | none =>
      (.ok (),
       [.bind 0 host 0, .listen 0 (min o.somaxconn 128), .getsockname 0,
        .socketCreated 1, .connect 1 addr port, .accept 0 2])

/-- The part of `nonblocking_socketpair` after `host` has been selected from
`family`: the `socket_type` and `proto` validation, then
`lsock = socket.socket(...)`, then the
`try: ... finally: lsock.close()` — an exception raised by `lsock.close()`
in the `finally:` replaces both a normal completion and an in-flight
exception — and on success `csock.setblocking(False)` and
`ssock.setblocking(False)` after the `finally:`, before the return. -/
def spair_rest (o : Oracle) (host : String) (socket_type proto : Nat) :
    Except PyErr (Nat × Nat) × List Event :=
  if socket_type ≠ SOCK_STREAM then
    (.error (.valueError "Only SOCK_STREAM socket socket_type is supported"), [])
  else if proto ≠ 0 then
    (.error (.valueError "Only protocol zero is supported"), [])
  else
    match o.lsockCreate with
    | some e => (.error (.osError e), [])
    | none =>
        let body := runBody o host
        let tr := Event.socketCreated 0 :: body.2 ++ [Event.close 0]
        match o.lsockClose with
        | some e => (.error (.osError e), tr)
        | none =>
            match body.1 with
            | .error e => (.error e, tr)
            | .ok _ =>
                (.ok (2, 1),
                 tr ++ [Event.setblocking 1 false, Event.setblocking 2 false])

/-- `nonblocking_socketpair(family, socket_type, proto)` from
`pika/compat.py`, over the oracle model.  Returns the Python-level outcome
(the raised exception, or the returned pair `(ssock, csock)` of socket ids)
and the ordered trace of socket-layer events.  Mirrors the source's
`if family == socket.AF_INET: host = _LOCALHOST
elif family == socket.AF_INET6: host = _LOCALHOST_V6  else: raise`,
followed by `spair_rest`. -/
def nonblocking_socketpair (o : Oracle) (family socket_type proto : Nat) :
    Except PyErr (Nat × Nat) × List Event :=
  if family = AF_INET then
    spair_rest o LOCALHOST socket_type proto
  else if family = AF_INET6 then
    spair_rest o LOCALHOST_V6 socket_type proto
  else
    (.error (.valueError
       "Only AF_INET and AF_INET6 socket address families are supported"), [])

/-- Number of `close` events for socket `id` in a trace. -/
def closeCount (tr : List Event) (id : Nat) : Nat :=
  tr.countP (fun e => match e with
                      | .close j => j == id
                      | _ => false)

/-- Number of socket-creation events (`socketCreated` or being the accepted
socket of an `accept`) for socket `id` in a trace. -/
def createCount (tr : List Event) (id : Nat) : Nat :=
  tr.countP (fun e => match e with
                      | .socketCreated j => j == id
                      | .accept _ j => j == id
                      | _ => false)

/-- A Python value that is either a `str` or a `bytes` (the two cases
`as_bytes` distinguishes with `isinstance(value, bytes)`); `bytes` is a list
of byte values. -/
inductive PyVal where
  | str (s : String)
  | bytes (b : List Nat)
deriving DecidableEq

/-- `value.encode('UTF-8')` for a `str`: the UTF-8 byte sequence of the
string, as byte values. -/
def utf8Bytes (s : String) : List Nat :=
  (s.data.flatMap String.utf8EncodeChar).map UInt8.toNat

/-- `as_bytes(value)` from `pika/compat.py`:
`if not isinstance(value, bytes): return value.encode('UTF-8')` else
`return value`. -/
def as_bytes (value : PyVal) : PyVal :=
  match value with
  | .str s => .bytes (utf8Bytes s)
  | .bytes b => .bytes b

/-- Decidable equality on `Except`, so that concrete runs can be compared
with `decide`. -/
def exceptDecEq {ε α : Type} [DecidableEq ε] [DecidableEq α] :
    DecidableEq (Except ε α) := fun a b =>
  match a, b with
  | .error x, .error y =>
      if h : x = y then .isTrue (congrArg Except.error h)
      else .isFalse (fun hc => h (Except.error.inj hc))
  | .error _, .ok _ => .isFalse (fun hc => Except.noConfusion hc)
  | .ok _, .error _ => .isFalse (fun hc => Except.noConfusion hc)
  | .ok x, .ok y =>
      if h : x = y then .isTrue (congrArg Except.ok h)
      else .isFalse (fun hc => h (Except.ok.inj hc))

instance {ε α : Type} [DecidableEq ε] [DecidableEq α] :
    DecidableEq (Except ε α) := exceptDecEq

/-! ### Concrete oracles used by witnesses and counterexamples -/

/-- An oracle on which every OS call succeeds: `SOMAXCONN = 4096`, and the
OS assigns `("127.0.0.1", 54321)` as the listener's name. -/
def oracleOK : Oracle :=
  ⟨4096, none, none, none, none, ("127.0.0.1", 54321), none, none, none,
   none, none⟩

/-- `oracleOK`, except that `connect` fails with errno 111
(`ECONNREFUSED`). -/
def oracleConnectFail : Oracle :=
  { oracleOK with connectRes := some 111 }

/-- `oracleOK`, except that `connect` fails with errno 111 and the cleanup
`csock.close()` itself fails with errno 9 (`EBADF`). -/
def oracleMask : Oracle :=
  { oracleOK with connectRes := some 111, csockClose := some 9 }

/-! ### Helper lemmas about `runBody` -/

/-- Whatever the oracle, the body's trace starts with the `bind` of the
listener to `(host, 0)`. -/
theorem runBody_bind_head (o : Oracle) (host : String) :
    ∃ rest, (runBody o host).2 = Event.bind 0 host 0 :: rest := by
  rcases o with ⟨smx, lc, br, lr, gr, sn, cc, cr, ar, ccl, lcl⟩
  cases br <;> cases lr <;> cases gr <;> cases cc <;> cases cr <;> cases ar <;>
    exact ⟨_, rfl⟩

/-- If `bind` succeeded, the body's trace contains the `listen` with backlog
`min SOMAXCONN 128`. -/
theorem runBody_listen_mem (o : Oracle) (host : String)
    (hb : o.bindRes = none) :
    Event.listen 0 (min o.somaxconn 128) ∈ (runBody o host).2 := by
  rcases o with ⟨smx, lc, br, lr, gr, sn, cc, cr, ar, ccl, lcl⟩
  cases hb
  cases lr <;> cases gr <;> cases cc <;> cases cr <;> cases ar <;>
    simp [runBody]

/-- The body never closes the listener (socket 0): that close belongs to the
`finally:` outside the body. -/
theorem runBody_closeCount_zero (o : Oracle) (host : String) :
    closeCount (runBody o host).2 0 = 0 := by
  rcases o with ⟨smx, lc, br, lr, gr, sn, cc, cr, ar, ccl, lcl⟩
  cases br <;> cases lr <;> cases gr <;> cases cc <;> cases cr <;> cases ar <;>
    rfl

/-- If the body completed (`.ok`), every handshake step succeeded and the
trace is exactly bind, listen, getsockname, csock creation, connect,
accept. -/
theorem runBody_ok_trace (o : Oracle) (host : String) (u : Unit)
    (h : (runBody o host).1 = .ok u) :
    (runBody o host).2 =
      [Event.bind 0 host 0, Event.listen 0 (min o.somaxconn 128),
       Event.getsockname 0, Event.socketCreated 1,
       Event.connect 1 o.sockname.1 o.sockname.2, Event.accept 0 2] := by
  rcases o with ⟨smx, lc, br, lr, gr, sn, cc, cr, ar, ccl, lcl⟩
  cases br <;> cases lr <;> cases gr <;> cases cc <;> cases cr <;> cases ar <;>
    simp_all [runBody]

/-- If the handshake reached the client socket and then `connect` (or, after
a successful `connect`, `accept`) failed, the body raises an `OSError` — the
close error `e2` if `csock.close()` itself failed, else the original `e1` —
and its trace ends with the `close` of the client socket. -/
theorem runBody_fail_trace (o : Oracle) (host : String) (e1 : Nat)
    (hb : o.bindRes = none) (hl : o.listenRes = none)
    (hg : o.getsocknameRes = none) (hc : o.csockCreate = none)
    (hca : o.connectRes = some e1 ∨
           (o.connectRes = none ∧ o.acceptRes = some e1)) :
    (runBody o host).1 =
      .error (.osError (match o.csockClose with
                        | some e2 => e2
                        | none => e1)) ∧
    (runBody o host).2 =
      [Event.bind 0 host 0, Event.listen 0 (min o.somaxconn 128),
       Event.getsockname 0, Event.socketCreated 1,
       Event.connect 1 o.sockname.1 o.sockname.2, Event.close 1] := by
  rcases o with ⟨smx, lc, br, lr, gr, sn, cc, cr, ar, ccl, lcl⟩
  cases hb; cases hl; cases hg; cases hc
  rcases hca with hcr | ⟨hcr, har⟩
  · cases hcr
    exact ⟨rfl, rfl⟩
  · cases hcr; cases har
    exact ⟨rfl, rfl⟩

/-! ### Success characterization of `nonblocking_socketpair` -/

/-- Inversion for a successful `spair_rest`: the arguments were valid, every
OS call succeeded, the returned pair is `(2, 1)` = `(ssock, csock)`, and the
trace is the full handshake followed by the listener close and the two
`setblocking(False)` calls. -/
theorem spair_rest_success (o : Oracle) (host : String) (st pr : Nat)
    (p : Nat × Nat) (h : (spair_rest o host st pr).1 = .ok p) :
    st = SOCK_STREAM ∧ pr = 0 ∧ o.lsockCreate = none ∧ o.lsockClose = none ∧
    (runBody o host).1 = .ok () ∧ p = (2, 1) ∧
    (spair_rest o host st pr).2 =
      Event.socketCreated 0 :: (runBody o host).2 ++
      [Event.close 0, Event.setblocking 1 false, Event.setblocking 2 false] := by
  by_cases h1 : st = SOCK_STREAM
  · by_cases h2 : pr = 0
    · subst h1; subst h2
      rcases o with ⟨smx, lc, br, lr, gr, sn, cc, cr, ar, ccl, lcl⟩
      cases lc with
      | some e => exact absurd h (by simp [spair_rest])
      | none =>
        cases lcl with
        | some e => exact absurd h (by simp [spair_rest])
        | none =>
          cases br <;> cases lr <;> cases gr <;> cases cc <;> cases cr <;>
            cases ar <;> simp_all [spair_rest, runBody]
    · exact absurd h (by simp [spair_rest, h1, h2])
  · exact absurd h (by simp [spair_rest, h1])

/-- Inversion for a successful `nonblocking_socketpair`, in terms of the
`host` selected from the family. -/
theorem spair_success (o : Oracle) (family st pr : Nat) (p : Nat × Nat)
    (h : (nonblocking_socketpair o family st pr).1 = .ok p) :
    (family = AF_INET ∨ family = AF_INET6) ∧ st = SOCK_STREAM ∧ pr = 0 ∧
    o.lsockCreate = none ∧ o.lsockClose = none ∧
    (runBody o (if family = AF_INET then LOCALHOST else LOCALHOST_V6)).1 =
      .ok () ∧
    p = (2, 1) ∧
    (nonblocking_socketpair o family st pr).2 =
      Event.socketCreated 0 ::
        (runBody o (if family = AF_INET then LOCALHOST else LOCALHOST_V6)).2 ++
      [Event.close 0, Event.setblocking 1 false, Event.setblocking 2 false] := by
  unfold nonblocking_socketpair at h ⊢
  by_cases hf1 : family = AF_INET
  · rw [if_pos hf1] at h
    obtain ⟨a1, a2, a3, a4, a5, a6, a7⟩ := spair_rest_success o LOCALHOST st pr p h
    rw [if_pos hf1, if_pos hf1]
    exact ⟨Or.inl hf1, a1, a2, a3, a4, a5, a6, a7⟩
  · rw [if_neg hf1] at h
    by_cases hf2 : family = AF_INET6
    · rw [if_pos hf2] at h
      obtain ⟨a1, a2, a3, a4, a5, a6, a7⟩ := spair_rest_success o LOCALHOST_V6 st pr p h
      rw [if_neg hf1, if_pos hf2, if_neg hf1]
      exact ⟨Or.inr hf2, a1, a2, a3, a4, a5, a6, a7⟩
    · rw [if_neg hf2] at h
      exact absurd h (by simp)

/-! ### The claims -/

/-- C1: on every successful call, `nonblocking_socketpair` has marked both
the server-side socket `s` and the client-side socket `c` non-blocking
(a `setblocking(False)` event for each is in the trace) before returning
them. -/
theorem C1_success_sockets_nonblocking (o : Oracle)
    (family socket_type proto s c : Nat)
    (h : (nonblocking_socketpair o family socket_type proto).1 = .ok (s, c)) :
    Event.setblocking s false ∈
      (nonblocking_socketpair o family socket_type proto).2 ∧
    Event.setblocking c false ∈
      (nonblocking_socketpair o family socket_type proto).2 := by
  obtain ⟨-, -, -, -, -, -, hp, htr⟩ :=
    spair_success o family socket_type proto (s, c) h
  obtain ⟨rfl, rfl⟩ := Prod.mk.injEq .. ▸ hp
  rw [htr]
  constructor
  · simp
  · simp

/-- Witness for C1 at the all-success oracle with `family = AF_INET`. -/
theorem C1_witness :
    (nonblocking_socketpair oracleOK AF_INET SOCK_STREAM 0).1 = .ok (2, 1) ∧
    (Event.setblocking 2 false ∈
       (nonblocking_socketpair oracleOK AF_INET SOCK_STREAM 0).2 ∧
     Event.setblocking 1 false ∈
       (nonblocking_socketpair oracleOK AF_INET SOCK_STREAM 0).2) :=
  ⟨rfl, C1_success_sockets_nonblocking oracleOK AF_INET SOCK_STREAM 0 2 1 rfl⟩

/-- C2: for every family other than `AF_INET` and `AF_INET6`,
`nonblocking_socketpair` fails with the family `ValueError` and its trace is
empty — no socket was opened, so none can be left open. -/
theorem C2_unsupported_family (o : Oracle) (family socket_type proto : Nat)
    (h1 : family ≠ AF_INET) (h2 : family ≠ AF_INET6) :
    (nonblocking_socketpair o family socket_type proto).1 =
      .error (.valueError
        "Only AF_INET and AF_INET6 socket address families are supported") ∧
    (nonblocking_socketpair o family socket_type proto).2 = [] := by
  unfold nonblocking_socketpair
  rw [if_neg h1, if_neg h2]
  exact ⟨rfl, rfl⟩

/-- Witness for C2 at `family = 7` (`AF_BRIDGE`, unsupported). -/
theorem C2_witness :
    (7 : Nat) ≠ AF_INET ∧ (7 : Nat) ≠ AF_INET6 ∧
    ((nonblocking_socketpair oracleOK 7 SOCK_STREAM 0).1 =
       .error (.valueError
         "Only AF_INET and AF_INET6 socket address families are supported") ∧
     (nonblocking_socketpair oracleOK 7 SOCK_STREAM 0).2 = []) :=
  ⟨by decide, by decide,
   C2_unsupported_family oracleOK 7 SOCK_STREAM 0 (by decide) (by decide)⟩

/-- Reduction of `nonblocking_socketpair` for a supported family and valid
`socket_type`/`proto`, once the listener socket was created. -/
theorem spair_reduce (o : Oracle) (family : Nat)
    (hf : family = AF_INET ∨ family = AF_INET6) (hl : o.lsockCreate = none) :
    nonblocking_socketpair o family SOCK_STREAM 0 =
      (match o.lsockClose with
       | some e =>
           (.error (.osError e),
            Event.socketCreated 0 ::
              (runBody o (if family = AF_INET then LOCALHOST
                          else LOCALHOST_V6)).2 ++ [Event.close 0])
       | none =>
           match (runBody o (if family = AF_INET then LOCALHOST
                             else LOCALHOST_V6)).1 with
           | .error e =>
               (.error e,
                Event.socketCreated 0 ::
                  (runBody o (if family = AF_INET then LOCALHOST
                              else LOCALHOST_V6)).2 ++ [Event.close 0])
           | .ok _ =>
               (.ok (2, 1),
                (Event.socketCreated 0 ::
                   (runBody o (if family = AF_INET then LOCALHOST
                               else LOCALHOST_V6)).2 ++ [Event.close 0]) ++
                [Event.setblocking 1 false,
                 Event.setblocking 2 false])) := by
  unfold nonblocking_socketpair spair_rest
  rcases hf with hf | hf
  · rw [if_pos hf, if_pos hf, if_neg (by simp), if_neg (by simp), hl]
  · by_cases hf1 : family = AF_INET
    · rw [if_pos hf1, if_pos hf1, if_neg (by simp), if_neg (by simp), hl]
    · rw [if_neg hf1, if_pos hf, if_neg hf1, if_neg (by simp),
        if_neg (by simp), hl]

/-- C3: when the handshake reaches the client socket and the `connect` step
(or the `accept` step) then fails, the call raises and the client-side
socket (id 1) has been closed exactly once — it is not left open on the
error path. -/
theorem C3_connect_fail_closes_csock (o : Oracle) (family e1 : Nat)
    (hf : family = AF_INET ∨ family = AF_INET6) (hl : o.lsockCreate = none)
    (hb : o.bindRes = none) (hli : o.listenRes = none)
    (hg : o.getsocknameRes = none) (hc : o.csockCreate = none)
    (hca : o.connectRes = some e1 ∨
           (o.connectRes = none ∧ o.acceptRes = some e1)) :
    (∃ err, (nonblocking_socketpair o family SOCK_STREAM 0).1 =
       .error err) ∧
    closeCount (nonblocking_socketpair o family SOCK_STREAM 0).2 1 = 1 := by
  rw [spair_reduce o family hf hl]
  obtain ⟨hres, htr⟩ :=
    runBody_fail_trace o
      (if family = AF_INET then LOCALHOST else LOCALHOST_V6) e1 hb hli hg hc hca
  cases hcl : o.lsockClose with
  | some e =>
      simp only [hcl, htr]
      exact ⟨⟨.osError e, rfl⟩, rfl⟩
  | none =>
      simp only [hcl, hres, htr]
      exact ⟨⟨_, rfl⟩, rfl⟩

/-- Witness for C3: `connect` fails with errno 111 on an otherwise healthy
oracle. -/
theorem C3_witness :
    ((∃ err, (nonblocking_socketpair oracleConnectFail AF_INET SOCK_STREAM 0).1
        = .error err) ∧
     closeCount
       (nonblocking_socketpair oracleConnectFail AF_INET SOCK_STREAM 0).2 1
       = 1) :=
  C3_connect_fail_closes_csock oracleConnectFail AF_INET 111 (Or.inl rfl)
    rfl rfl rfl rfl rfl (Or.inl rfl)

/-- Helper for C4 at the `spair_rest` level: whenever the listener was
created, the trace closes socket 0 exactly once. -/
theorem spair_rest_listener_close (o : Oracle) (host : String) (st pr : Nat)
    (h : Event.socketCreated 0 ∈ (spair_rest o host st pr).2) :
    closeCount (spair_rest o host st pr).2 0 = 1 := by
  by_cases h1 : st = SOCK_STREAM
  · by_cases h2 : pr = 0
    · subst h1; subst h2
      rcases o with ⟨smx, lc, br, lr, gr, sn, cc, cr, ar, ccl, lcl⟩
      cases lc with
      | some e => simp [spair_rest] at h
      | none =>
        cases lcl <;> cases br <;> cases lr <;> cases gr <;> cases cc <;>
          cases cr <;> cases ar <;> rfl
    · simp [spair_rest, h1, h2] at h
  · simp [spair_rest, h1] at h

/-- C4: on every run of `nonblocking_socketpair` in which the listener
socket (id 0) was created, the trace closes it exactly once — success or
failure, the listener never survives the call and is never closed twice. -/
theorem C4_listener_closed_once (o : Oracle) (family socket_type proto : Nat)
    (h : Event.socketCreated 0 ∈
      (nonblocking_socketpair o family socket_type proto).2) :
    closeCount (nonblocking_socketpair o family socket_type proto).2 0 = 1 := by
  unfold nonblocking_socketpair at h ⊢
  by_cases hf1 : family = AF_INET
  · rw [if_pos hf1] at h ⊢
    exact spair_rest_listener_close o LOCALHOST socket_type proto h
  · rw [if_neg hf1] at h ⊢
    by_cases hf2 : family = AF_INET6
    · rw [if_pos hf2] at h ⊢
      exact spair_rest_listener_close o LOCALHOST_V6 socket_type proto h
    · rw [if_neg hf2] at h
      simp at h

/-- Witness for C4 at the all-success oracle. -/
theorem C4_witness :
    Event.socketCreated 0 ∈
      (nonblocking_socketpair oracleOK AF_INET SOCK_STREAM 0).2 ∧
    closeCount (nonblocking_socketpair oracleOK AF_INET SOCK_STREAM 0).2 0
      = 1 :=
  ⟨by decide, C4_listener_closed_once oracleOK AF_INET SOCK_STREAM 0 (by decide)⟩

/-! ### Validation helpers shared by several claims -/

/-- For a supported family, `nonblocking_socketpair` is `spair_rest` at that
family's loopback host. -/
theorem spair_family_reduce (o : Oracle) (family st pr : Nat)
    (hf : family = AF_INET ∨ family = AF_INET6) :
    nonblocking_socketpair o family st pr =
      spair_rest o (if family = AF_INET then LOCALHOST else LOCALHOST_V6)
        st pr := by
  by_cases hf1 : family = AF_INET
  · unfold nonblocking_socketpair
    rw [if_pos hf1, if_pos hf1]
  · rcases hf with hf | hf
    · exact absurd hf hf1
    · unfold nonblocking_socketpair
      rw [if_neg hf1, if_pos hf, if_neg hf1]

/-- An unsupported family raises the family `ValueError` with an empty
trace. -/
theorem spair_family_error (o : Oracle) (family st pr : Nat)
    (h1 : family ≠ AF_INET) (h2 : family ≠ AF_INET6) :
    nonblocking_socketpair o family st pr =
      (.error (.valueError
         "Only AF_INET and AF_INET6 socket address families are supported"),
       []) := by
  unfold nonblocking_socketpair
  rw [if_neg h1, if_neg h2]

/-- With a supported family, an unsupported socket type raises the type
`ValueError` with an empty trace. -/
theorem spair_type_error (o : Oracle) (family st pr : Nat)
    (hf : family = AF_INET ∨ family = AF_INET6) (ht : st ≠ SOCK_STREAM) :
    nonblocking_socketpair o family st pr =
      (.error (.valueError "Only SOCK_STREAM socket socket_type is supported"),
       []) := by
  rw [spair_family_reduce o family st pr hf]
  unfold spair_rest
  rw [if_pos ht]

/-- With a supported family and stream type, a non-zero protocol raises the
protocol `ValueError` with an empty trace. -/
theorem spair_proto_error (o : Oracle) (family st pr : Nat)
    (hf : family = AF_INET ∨ family = AF_INET6) (ht : st = SOCK_STREAM)
    (hp : pr ≠ 0) :
    nonblocking_socketpair o family st pr =
      (.error (.valueError "Only protocol zero is supported"), []) := by
  rw [spair_family_reduce o family st pr hf]
  unfold spair_rest
  rw [if_neg (by simp [ht]), if_pos hp]

/-- C5 counterexample: `connect` fails with errno 111, and the cleanup
`csock.close()` itself fails with errno 9.  The call reports `OSError 9` —
the close failure — to the caller, not the original `OSError 111`: the close
failure does mask the original error, contradicting the claim. -/
theorem C5_counterexample :
    oracleMask.connectRes = some 111 ∧ oracleMask.csockClose = some 9 ∧
    (nonblocking_socketpair oracleMask AF_INET SOCK_STREAM 0).1 =
      .error (.osError 9) ∧
    (nonblocking_socketpair oracleMask AF_INET SOCK_STREAM 0).1 ≠
      .error (.osError 111) := by
  refine ⟨rfl, rfl, rfl, ?_⟩
  decide

/-- C5 (amended): when `connect` (or `accept`) fails, the cleanup is
unconditional — both the client socket and the listener are still closed
exactly once, whatever the close calls' outcomes — but it is not guarded by
any error handling, so the error the caller sees is: the `lsock.close()`
error if that close failed, else the `csock.close()` error if that close
failed, else the original error `e1`. -/
theorem C5_cleanup_unconditional (o : Oracle) (family e1 : Nat)
    (hf : family = AF_INET ∨ family = AF_INET6) (hl : o.lsockCreate = none)
    (hb : o.bindRes = none) (hli : o.listenRes = none)
    (hg : o.getsocknameRes = none) (hc : o.csockCreate = none)
    (hca : o.connectRes = some e1 ∨
           (o.connectRes = none ∧ o.acceptRes = some e1)) :
    closeCount (nonblocking_socketpair o family SOCK_STREAM 0).2 1 = 1 ∧
    closeCount (nonblocking_socketpair o family SOCK_STREAM 0).2 0 = 1 ∧
    (nonblocking_socketpair o family SOCK_STREAM 0).1 =
      .error (.osError
        (match o.lsockClose with
         | some e3 => e3
         | none => match o.csockClose with
                   | some e2 => e2
                   | none => e1)) := by
  rw [spair_reduce o family hf hl]
  obtain ⟨hres, htr⟩ :=
    runBody_fail_trace o
      (if family = AF_INET then LOCALHOST else LOCALHOST_V6) e1 hb hli hg hc
      hca
  cases hcl : o.lsockClose with
  | some e3 =>
      simp only [hcl, htr]
      refine ⟨?_, ?_, ?_⟩ <;> first | rfl | trivial
  | none =>
      simp only [hcl, hres, htr]
      refine ⟨?_, ?_, ?_⟩ <;> first | rfl | trivial

/-- Witness for the amended C5 at `oracleMask`: both cleanup closes happen
and the reported error is the close error 9, not the connect error 111. -/
theorem C5_witness :
    closeCount (nonblocking_socketpair oracleMask AF_INET SOCK_STREAM 0).2 1
      = 1 ∧
    closeCount (nonblocking_socketpair oracleMask AF_INET SOCK_STREAM 0).2 0
      = 1 ∧
    (nonblocking_socketpair oracleMask AF_INET SOCK_STREAM 0).1 =
      .error (.osError
        (match oracleMask.lsockClose with
         | some e3 => e3
         | none => match oracleMask.csockClose with
                   | some e2 => e2
                   | none => 111)) :=
  C5_cleanup_unconditional oracleMask AF_INET 111 (Or.inl rfl) rfl rfl rfl
    rfl rfl (Or.inl rfl)

/-- C6: with a supported family, an unsupported socket type — and, with the
stream type, a non-zero protocol — raises `ValueError` with an empty trace:
no socket was created and no bind was attempted. -/
theorem C6_invalid_type_or_proto (o : Oracle) (family socket_type proto : Nat)
    (hf : family = AF_INET ∨ family = AF_INET6) :
    (socket_type ≠ SOCK_STREAM →
       (nonblocking_socketpair o family socket_type proto).1 =
         .error (.valueError
           "Only SOCK_STREAM socket socket_type is supported") ∧
       (nonblocking_socketpair o family socket_type proto).2 = []) ∧
    (socket_type = SOCK_STREAM → proto ≠ 0 →
       (nonblocking_socketpair o family socket_type proto).1 =
         .error (.valueError "Only protocol zero is supported") ∧
       (nonblocking_socketpair o family socket_type proto).2 = []) := by
  constructor
  · intro ht
    rw [spair_type_error o family socket_type proto hf ht]
    exact ⟨rfl, rfl⟩
  · intro ht hp
    rw [spair_proto_error o family socket_type proto hf ht hp]
    exact ⟨rfl, rfl⟩

/-- Witness for C6: socket type 5 (`SOCK_SEQPACKET`) and protocol 6
(`IPPROTO_TCP`), each with family `AF_INET`. -/
theorem C6_witness :
    ((5 : Nat) ≠ SOCK_STREAM ∧
     (nonblocking_socketpair oracleOK AF_INET 5 0).1 =
       .error (.valueError
         "Only SOCK_STREAM socket socket_type is supported") ∧
     (nonblocking_socketpair oracleOK AF_INET 5 0).2 = []) ∧
    ((6 : Nat) ≠ 0 ∧
     (nonblocking_socketpair oracleOK AF_INET SOCK_STREAM 6).1 =
       .error (.valueError "Only protocol zero is supported") ∧
     (nonblocking_socketpair oracleOK AF_INET SOCK_STREAM 6).2 = []) :=
  ⟨⟨by decide,
    (C6_invalid_type_or_proto oracleOK AF_INET 5 0 (Or.inl rfl)).1
      (by decide)⟩,
   ⟨by decide,
    (C6_invalid_type_or_proto oracleOK AF_INET SOCK_STREAM 6 (Or.inl rfl)).2
      rfl (by decide)⟩⟩

/-- Once the listener exists, every event of the handshake body is in the
call's trace, whatever happens afterwards. -/
theorem spair_trace_superset (o : Oracle) (family : Nat)
    (hf : family = AF_INET ∨ family = AF_INET6) (hl : o.lsockCreate = none)
    (e : Event)
    (he : e ∈ (runBody o (if family = AF_INET then LOCALHOST
                          else LOCALHOST_V6)).2) :
    e ∈ (nonblocking_socketpair o family SOCK_STREAM 0).2 := by
  rw [spair_reduce o family hf hl]
  cases hcl : o.lsockClose with
  | some e3 => simp [he]
  | none =>
      cases hb : (runBody o (if family = AF_INET then LOCALHOST
                             else LOCALHOST_V6)).1 with
      | error e4 => simp [he]
      | ok u => simp [he]

/-- C7: for either supported family, once the listener socket exists the
call binds it to that family's loopback literal (`127.0.0.1` or `::1`) on
port 0, and — when the bind succeeded — listens with backlog
`min(SOMAXCONN, 128)`. -/
theorem C7_bind_loopback_listen_backlog (o : Oracle) (family : Nat)
    (hf : family = AF_INET ∨ family = AF_INET6) (hl : o.lsockCreate = none) :
    Event.bind 0 (if family = AF_INET then LOCALHOST else LOCALHOST_V6) 0 ∈
      (nonblocking_socketpair o family SOCK_STREAM 0).2 ∧
    (o.bindRes = none →
      Event.listen 0 (min o.somaxconn 128) ∈
        (nonblocking_socketpair o family SOCK_STREAM 0).2) := by
  constructor
  · obtain ⟨rest, hrest⟩ :=
      runBody_bind_head o (if family = AF_INET then LOCALHOST
                           else LOCALHOST_V6)
    exact spair_trace_superset o family hf hl _ (by rw [hrest]; simp)
  · intro hb
    exact spair_trace_superset o family hf hl _
      (runBody_listen_mem o (if family = AF_INET then LOCALHOST
                             else LOCALHOST_V6) hb)

/-- Witness for C7 at the all-success oracle with `family = AF_INET6`. -/
theorem C7_witness :
    Event.bind 0 (if AF_INET6 = AF_INET then LOCALHOST else LOCALHOST_V6) 0 ∈
      (nonblocking_socketpair oracleOK AF_INET6 SOCK_STREAM 0).2 ∧
    (oracleOK.bindRes = none →
      Event.listen 0 (min oracleOK.somaxconn 128) ∈
        (nonblocking_socketpair oracleOK AF_INET6 SOCK_STREAM 0).2) :=
  C7_bind_loopback_listen_backlog oracleOK AF_INET6 (Or.inr rfl) rfl

/-- C8: argument validation is ordered and short-circuiting: an unsupported
family wins over everything (whatever `socket_type` and `proto` are); with a
supported family an unsupported socket type wins over `proto`; the protocol
error can only be raised with a supported family and the stream type. -/
theorem C8_validation_order (o : Oracle) (family socket_type proto : Nat) :
    (family ≠ AF_INET → family ≠ AF_INET6 →
       (nonblocking_socketpair o family socket_type proto).1 =
         .error (.valueError
           "Only AF_INET and AF_INET6 socket address families are supported")) ∧
    ((family = AF_INET ∨ family = AF_INET6) → socket_type ≠ SOCK_STREAM →
       (nonblocking_socketpair o family socket_type proto).1 =
         .error (.valueError
           "Only SOCK_STREAM socket socket_type is supported")) ∧
    ((family = AF_INET ∨ family = AF_INET6) → socket_type = SOCK_STREAM →
     proto ≠ 0 →
       (nonblocking_socketpair o family socket_type proto).1 =
         .error (.valueError "Only protocol zero is supported")) := by
  refine ⟨fun h1 h2 => ?_, fun hf ht => ?_, fun hf ht hp => ?_⟩
  · rw [spair_family_error o family socket_type proto h1 h2]
  · rw [spair_type_error o family socket_type proto hf ht]
  · rw [spair_proto_error o family socket_type proto hf ht hp]

/-- Witness for C8: all three arguments invalid at once (`family = 7`,
`socket_type = 5`, `proto = 6`) reports the family error; valid family with
invalid type and proto reports the type error; only family and type valid
reports the proto error. -/
theorem C8_witness :
    (nonblocking_socketpair oracleOK 7 5 6).1 =
      .error (.valueError
        "Only AF_INET and AF_INET6 socket address families are supported") ∧
    (nonblocking_socketpair oracleOK AF_INET 5 6).1 =
      .error (.valueError
        "Only SOCK_STREAM socket socket_type is supported") ∧
    (nonblocking_socketpair oracleOK AF_INET SOCK_STREAM 6).1 =
      .error (.valueError "Only protocol zero is supported") :=
  ⟨(C8_validation_order oracleOK 7 5 6).1 (by decide) (by decide),
   (C8_validation_order oracleOK AF_INET 5 6).2.1 (Or.inl rfl) (by decide),
   (C8_validation_order oracleOK AF_INET SOCK_STREAM 6).2.2 (Or.inl rfl) rfl
     (by decide)⟩

/-- C9: `as_bytes` is idempotent: it returns every `bytes` input unchanged,
and applying it twice equals applying it once, for every input value. -/
theorem C9_as_bytes_idempotent :
    (∀ b : List Nat, as_bytes (.bytes b) = .bytes b) ∧
    (∀ v : PyVal, as_bytes (as_bytes v) = as_bytes v) := by
  refine ⟨fun b => rfl, fun v => ?_⟩
  cases v <;> rfl

/-! ### Helper lemmas for `to_digit` -/

